import Mathlib

/-
Verification development for the subwaydata.nyc ETL orchestration engine.

The development shallowly embeds the entry points found in
src/subwaydatanyc.go and the older ETL entry point and export test found in
src/updater/export/export_test.go.  Components whose implementation is not
part of the sources here (the journal exporter AsCsv, the scheduler
CalculatePendingDays, the day parser ParseDay, and the purge entry point
DeleteDays) are modelled from the specification, and checked against the
test fixtures and call sites that are in the sources.
-/

namespace SubwayData

/-! ## Journal model (journal.Trip, journal.StopTime)

Timestamps are Unix epoch seconds, modelled as Int.  Optional fields of the
Go structs (pointers that may be nil) are modelled as Option. -/

structure StopTime where
  stopID : String
  track : Option String
  arrivalTime : Option Int
  departureTime : Option Int
deriving Repr, DecidableEq

structure Trip where
  tripUID : String
  tripID : String
  routeID : String
  directionID : Bool
  vehicleID : String
  startTime : Int
  stopTimes : List StopTime
deriving Repr, DecidableEq

/-! ## Journal exporter -/

/-- Renders an optional epoch timestamp: blank when absent, else the integer
Unix epoch seconds. -/
def renderOptTime (t : Option Int) : String :=
  (t.map toString).getD ""

/-- Renders an optional track label: blank when absent. -/
def renderOptTrack (t : Option String) : String :=
  t.getD ""

/-- One row of trips.csv for one Trip: trip uid, trip id, route id, the
direction flag rendered as literal true or false, the start time rendered as
integer Unix epoch seconds, and the vehicle id. -/
def tripRow (t : Trip) : String :=
  t.tripUID ++ "," ++ t.tripID ++ "," ++ t.routeID ++ ","
    ++ (if t.directionID then "true" else "false") ++ ","
    ++ toString t.startTime ++ "," ++ t.vehicleID ++ "\n"

/-- One row of stop_times.csv for one (Trip, StopTime) pair; the trip uid is
denormalized onto every stop row. -/
def stopTimeRow (uid : String) (st : StopTime) : String :=
  uid ++ "," ++ st.stopID ++ "," ++ renderOptTrack st.track ++ ","
    ++ renderOptTime st.arrivalTime ++ ","
    ++ renderOptTime st.departureTime ++ "\n"

/-- Content of the trips.csv entry: header plus one row per Trip, in input
order. -/
def tripsCsv (trips : List Trip) : String :=
  "trip_uid,trip_id,route_id,direction_id,start_time,vehicle_id\n"
    ++ String.join (trips.map tripRow)

/-- Content of the stop_times.csv entry: header plus one row per
(Trip, StopTime) pair, Trips in input order, StopTimes within a Trip in
sequence order. -/
def stopTimesCsv (trips : List Trip) : String :=
  "trip_uid,stop_id,track,arrival_time,departure_time\n"
    ++ String.join (trips.map fun t =>
        String.join (t.stopTimes.map (stopTimeRow t.tripUID)))

/-- Modelled from the spec: the journal exporter AsCsv of package
updater/export, whose implementation is absent from the sources (only its
test is present).  The archive is modelled as the ordered list of its named
entries, each a name together with its byte content; per the spec it
contains exactly the two entries namePfx ++ trips.csv and
namePfx ++ stop_times.csv. -/
def AsCsv (trips : List Trip) (namePfx : String) : List (String × String) :=
  [(namePfx ++ "trips.csv", tripsCsv trips),
   (namePfx ++ "stop_times.csv", stopTimesCsv trips)]

/-! ## The test fixture of src/updater/export/export_test.go -/

/-- The literal Trip of the export test. -/
def testTrip : Trip :=
  { tripUID := "TripUID"
    tripID := "TripID"
    routeID := "RouteID"
    directionID := true
    vehicleID := "VehicleID"
    startTime := 100
    stopTimes :=
      [ { stopID := "StopID1", track := some "Track1",
          arrivalTime := none, departureTime := some 200 },
        { stopID := "StopID2", track := none,
          arrivalTime := some 300, departureTime := some 400 },
        { stopID := "StopID3", track := some "Track3",
          arrivalTime := some 500, departureTime := none } ] }

/-- The expected trips.csv bytes, transcribed from the test. -/
def expectedTripsCsv : String :=
  "trip_uid,trip_id,route_id,direction_id,start_time,vehicle_id\n"
    ++ "TripUID,TripID,RouteID,true,100,VehicleID\n"

/-- The expected stop_times.csv bytes, transcribed from the test. -/
def expectedStopTimesCsv : String :=
  "trip_uid,stop_id,track,arrival_time,departure_time\n"
    ++ "TripUID,StopID1,Track1,,200\n"
    ++ "TripUID,StopID2,,300,400\n"
    ++ "TripUID,StopID3,Track3,500,\n"

end SubwayData

/-- C1: exporting the literal test Trip via AsCsv with the name
namePfx somePrefix_ produces an archive whose entries are exactly
somePrefix_trips.csv and somePrefix_stop_times.csv, byte for byte equal to
the header plus rows fixed by the test fixtures, with the direction rendered
as literal true or false, times as integer Unix epoch seconds, and absent
track, arrival and departure rendered as blank fields. -/
theorem C1_as_csv_exactness :
    SubwayData.AsCsv [SubwayData.testTrip] "somePrefix_" =
      [("somePrefix_trips.csv", SubwayData.expectedTripsCsv),
       ("somePrefix_stop_times.csv", SubwayData.expectedStopTimesCsv)] := by
  decide

namespace SubwayData

/-! ## Metadata ledger and backlog scheduler

Calendar days of the scheduler are modelled as integers counting days since
the Unix epoch; equality and ordering of days are by this date. -/

/-- One ledger record: a day together with the set of feed identifiers
already successfully processed for it. -/
structure MetadataRecord where
  day : Int
  feeds : List String
deriving Repr, DecidableEq

/-- One pending day produced by the scheduler: the date plus the feed
identifiers still missing for it. -/
structure PendingDay where
  date : Int
  feedIDs : List String
deriving Repr, DecidableEq

/-- The feeds the ledger records as processed for a day (empty when the day
is absent from the ledger). -/
def processedFeeds (ledger : List MetadataRecord) (d : Int) : List String :=
  ((ledger.find? (fun r => r.day = d)).map (fun r => r.feeds)).getD []

/-- The feeds still missing for a day: the expected feeds not yet present in
the ledger record of the day. -/
def missingFeeds (expected : Int → List String) (ledger : List MetadataRecord)
    (d : Int) : List String :=
  (expected d).filter (fun f => ¬ (processedFeeds ledger d).contains f)

/-- Modelled from the spec: metadata.CalculatePendingDays, whose
implementation is absent from the sources (only its caller is present).
Enumerates every day from the earliest feed availability boundary firstDay
up to referenceDay exclusive, keeps the days not fully covered by the
ledger (pairing each with its missing feeds), and returns them ordered
most recent day first. -/
def CalculatePendingDays (expected : Int → List String)
    (ledger : List MetadataRecord) (firstDay referenceDay : Int) :
    List PendingDay :=
  let days := (List.range (referenceDay - firstDay).toNat).map
    (fun i => firstDay + Int.ofNat i)
  (((days.filter (fun d => !(missingFeeds expected ledger d).isEmpty)).map
    (fun d => ⟨d, missingFeeds expected ledger d⟩ : Int → PendingDay)).reverse)

/-! ## The backlog entry point (older ETL main, backlog Action)

The entry point reads the clock once: it computes the reference day as now,
converted to the configured target timezone, shifted back by five hours, and
truncated to a calendar date.  The timezone is modelled by its offset from
UTC in seconds at the given instant; instants are Unix epoch seconds. -/

/-- The calendar day (days since epoch) containing the instant t in a
timezone with offset tz seconds. -/
def epochDayInTz (t tz : Int) : Int := (t + tz) / 86400

/-- The reference day the backlog Action computes:
time.Now().In(loc).Add(-5 * time.Hour).Format and re-parse, that is the
calendar day in the target timezone of the instant five hours before now. -/
def backlogReferenceDay (now tz : Int) : Int :=
  epochDayInTz (now - 5 * 3600) tz

/-- The lines the backlog Action prints for a nonempty pending list: the
count line, then up to twenty days taken from the end of the list (least
recent first), then a summary line for the rest. -/
def backlogListLines (p : List PendingDay) : List String :=
  (toString p.length ++ " days in the backlog:") ::
    ((p.reverse.take 20).map (fun d => "- " ++ toString d.date)
      ++ if p.length ≤ 20 then []
         else ["...and " ++ toString (p.length - 20) ++ " more days"])

/-- The backlog Action of the older ETL entry point: computes the reference
day from the clock reading now and the timezone offset tz, hands it to the
pure pending day computation, and returns nil (ok) with the printed lines;
an empty pending list is reported, not an error. -/
def backlogEntry (expected : Int → List String) (ledger : List MetadataRecord)
    (firstDay : Int) (now tz : Int) : Except String (List String) :=
  let pendingDays := CalculatePendingDays expected ledger firstDay
    (backlogReferenceDay now tz)
  if pendingDays.isEmpty then Except.ok ["No days in the backlog"]
  else Except.ok (backlogListLines pendingDays)

end SubwayData

/-- C2: for every expected feed assignment, ledger snapshot, availability
boundary and reference day, the pending day computation returns the pending
days ordered most recent day first: the dates along the returned list are
strictly decreasing, so the first element is the latest pending calendar
date. -/
theorem C2_pending_most_recent_first (expected : Int → List String)
    (ledger : List SubwayData.MetadataRecord) (firstDay referenceDay : Int) :
    (SubwayData.CalculatePendingDays expected ledger firstDay
        referenceDay).Pairwise
      (fun a b => b.date < a.date) := by
  have hmono : forall a b : Nat, a < b ->
      firstDay + Int.ofNat a < firstDay + Int.ofNat b := by
    intro a b h
    simp only [Int.ofNat_eq_coe]
    omega
  have hdays : ((List.range (referenceDay - firstDay).toNat).map
      (fun i => firstDay + Int.ofNat i)).Pairwise (fun a b : Int => a < b) :=
    List.Pairwise.map (fun i : Nat => firstDay + Int.ofNat i) hmono
      (List.pairwise_lt_range _)
  have hfilt : (((List.range (referenceDay - firstDay).toNat).map
      (fun i => firstDay + Int.ofNat i)).filter
      (fun d => !(SubwayData.missingFeeds expected ledger d).isEmpty)).Pairwise
      (fun a b : Int => a < b) :=
    List.Pairwise.sublist (List.filter_sublist _) hdays
  exact List.pairwise_reverse.mpr (hfilt.map _ (fun a b h => h))

/-- C3: the backlog entry point computes the reference day of the scheduler
as the current instant converted to the configured target timezone and
shifted back by the fixed five hour operational delay (before five in the
morning local time the reference day is the previous calendar day, from five
on it is the current calendar day), and it passes that day to the pure
pending day computation as an explicit input, which reads no clock and no
timezone of its own. -/
theorem C3_reference_day_shift (now tz : Int) :
    (SubwayData.backlogReferenceDay now tz =
      (if (now + tz) % 86400 < 5 * 3600 then SubwayData.epochDayInTz now tz - 1
       else SubwayData.epochDayInTz now tz)) ∧
    (∀ (expected : Int → List String)
        (ledger : List SubwayData.MetadataRecord) (firstDay : Int),
      SubwayData.backlogEntry expected ledger firstDay now tz =
        (fun p => if p.isEmpty then Except.ok ["No days in the backlog"]
                  else Except.ok (SubwayData.backlogListLines p))
          (SubwayData.CalculatePendingDays expected ledger firstDay
            (SubwayData.backlogReferenceDay now tz))) := by
  constructor
  · unfold SubwayData.backlogReferenceDay SubwayData.epochDayInTz
    split <;> omega
  · intro expected ledger firstDay
    rfl

/-- C8: whenever the computed pending set is empty, the backlog invocation
returns without error and reports the empty backlog; an empty pending set is
never treated as a failure. -/
theorem C8_empty_backlog_ok (expected : Int → List String)
    (ledger : List SubwayData.MetadataRecord) (firstDay now tz : Int)
    (h : SubwayData.CalculatePendingDays expected ledger firstDay
      (SubwayData.backlogReferenceDay now tz) = []) :
    SubwayData.backlogEntry expected ledger firstDay now tz =
      Except.ok ["No days in the backlog"] := by
  unfold SubwayData.backlogEntry
  rw [h]
  rfl

/-- Witness for C8 at a concrete input: with an empty ledger, boundary day
zero and the clock at the epoch, the pending set is empty and the backlog
entry point reports the empty backlog without error. -/
theorem C8_empty_backlog_ok_witness :
    SubwayData.CalculatePendingDays (fun _ => ["nycsubway_L"]) [] 0
        (SubwayData.backlogReferenceDay 0 0) = [] ∧
    SubwayData.backlogEntry (fun _ => ["nycsubway_L"]) [] 0 0 0 =
      Except.ok ["No days in the backlog"] :=
  ⟨by rfl, C8_empty_backlog_ok (fun _ => ["nycsubway_L"]) [] 0 0 0 (by rfl)⟩

namespace SubwayData

/-! ## Day identifiers and the CLI entry points of src/subwaydatanyc.go -/

/-- A calendar date as carried by a YYYY-MM-DD day identifier. -/
structure CivilDay where
  year : Nat
  month : Nat
  day : Nat
deriving Repr, DecidableEq

/-- Gregorian leap year rule. -/
def isLeapYear (y : Nat) : Bool :=
  (y % 4 == 0 && y % 100 != 0) || y % 400 == 0

/-- Number of days of a month. -/
def daysInMonth (y m : Nat) : Nat :=
  if m == 2 then (if isLeapYear y then 29 else 28)
  else if [4, 6, 9, 11].contains m then 30
  else 31

/-- The numeric value of a decimal digit character, none otherwise. -/
def digitVal (c : Char) : Option Nat :=
  if c.isDigit then some (c.toNat - 48) else none

/-- Modelled from the spec: metadata.ParseDay, whose implementation is
absent from the sources (only its callers are present).  Parses a day
identifier of the exact form YYYY-MM-DD; any other input is rejected by
returning none (a user facing error at the call sites), never a panic. -/
def ParseDay (s : String) : Option CivilDay :=
  match s.toList with
  | [y1, y2, y3, y4, c1, m1, m2, c2, d1, d2] =>
    if c1 == '-' && c2 == '-' then
      match digitVal y1, digitVal y2, digitVal y3, digitVal y4,
            digitVal m1, digitVal m2, digitVal d1, digitVal d2 with
      | some a, some b, some c, some d, some e, some f, some g, some h =>
        let y := 1000 * a + 100 * b + 10 * c + d
        let mo := 10 * e + f
        let dy := 10 * g + h
        if 1 ≤ mo && mo ≤ 12 && 1 ≤ dy && dy ≤ daysInMonth y mo then
          some ⟨y, mo, dy⟩
        else none
      | _, _, _, _, _, _, _, _ => none
    else none
  | _ => none

/-- The arguments of one invocation of the ETL pipeline etl.Run: the parsed
day and the feed identifiers handed to the pipeline. -/
structure EtlRunCall where
  day : CivilDay
  feedIDs : List String
deriving Repr, DecidableEq

/-- The run Action of src/subwaydatanyc.go: with no positional argument it
returns the no day provided error; with one argument it parses the day and,
on success, invokes the pipeline with the hard coded feed identifier list
containing exactly nycsubway_L; with more arguments it returns the too many
arguments error.  An ok value records the one pipeline invocation made; an
error value means the pipeline was never invoked. -/
def runAction (args : List String) : Except String EtlRunCall :=
  match args with
  | [] => Except.error "no day provided"
  | [raw] =>
    match ParseDay raw with
    | none => Except.error ("failed to parse day: " ++ raw)
    | some d => Except.ok ⟨d, ["nycsubway_L"]⟩
  | _ => Except.error "too many command line arguments passed"

/-! ## The delete entry point and the purge manager -/

/-- The mutable state the purge manager acts on: the ledger records and the
published artifacts, both keyed by day. -/
structure EtlState where
  ledger : List CivilDay
  published : List CivilDay
deriving Repr, DecidableEq

/-- Modelled from the spec: the purge manager.  With confirm false it
performs a dry run, validating each day against the ledger and reporting
what would be removed without mutating the state; with confirm true it
removes the published artifact and the ledger record of each day.  The
second component is the report of removed (or would be removed) days. -/
def PurgeDays (days : List CivilDay) (confirm : Bool) (st : EtlState) :
    EtlState × List CivilDay :=
  if confirm then
    ({ ledger := st.ledger.filter (fun d => !days.contains d),
       published := st.published.filter (fun d => !days.contains d) },
     days.filter (fun d => st.ledger.contains d))
  else
    (st, days.filter (fun d => st.ledger.contains d))

/-- Modelled from the spec: etl.DeleteDays as invoked by the delete Action;
its boolean argument is the dry run switch, the negation of the purge
confirmation. -/
def DeleteDays (days : List CivilDay) (dryRun : Bool) (st : EtlState) :
    EtlState × List CivilDay :=
  PurgeDays days (!dryRun) st

/-- The day parsing loop of the delete Action: parses each raw day string,
stopping at the first failure with the wrapped parse error. -/
def parseDays (raw : List String) : Except String (List CivilDay) :=
  match raw with
  | [] => Except.ok []
  | r :: rest =>
    match ParseDay r with
    | none => Except.error ("failed to parse start date: " ++ r)
    | some d => (parseDays rest).map (fun ds => d :: ds)

/-- The delete Action of src/subwaydatanyc.go: parses the day flags and
invokes etl.DeleteDays with the dry run switch set to the negation of the
yes flag. -/
def deleteAction (rawDays : List String) (yes : Bool) (st : EtlState) :
    Except String (EtlState × List CivilDay) :=
  match parseDays rawDays with
  | Except.error e => Except.error e
  | Except.ok days => Except.ok (DeleteDays days (!yes) st)

/-! ## The backlog entry point of src/subwaydatanyc.go -/

/-- The options the backlog Action hands to etl.Backlog. -/
structure BacklogOptions where
  dryRun : Bool
  concurrency : Int
  limit : Option Int
deriving Repr, DecidableEq

/-- The backlog Action of src/subwaydatanyc.go: command line flags are
modelled as Option values, none when the flag was not given.  The
concurrency flag declares the default value one, so an absent flag reads as
one; the limit option is set only when the limit flag was given. -/
def mkBacklogOptions (dryRun : Bool) (concurrencyFlag : Option Int)
    (limitFlag : Option Int) : BacklogOptions :=
  { dryRun := dryRun
    concurrency := concurrencyFlag.getD 1
    limit := limitFlag }

/-- Modelled from the spec: the day selection of the backlog executor,
which takes a prefix of the pending days only when a limit is set. -/
def selectBacklogDays (pending : List PendingDay) (limit : Option Int) :
    List PendingDay :=
  match limit with
  | none => pending
  | some l => pending.take l.toNat

/-! ## The main wrapper -/

/-- Observable outcome of one process invocation. -/
structure ProcessResult where
  exitCode : Nat
  stdout : List String
deriving Repr, DecidableEq

/-- The tail of main in src/subwaydatanyc.go: when app.Run returns an error
the process prints the message prefixed by Error: and exits with status one;
otherwise main returns normally and the process exits with status zero. -/
def mainExit (runResult : Option String) : ProcessResult :=
  match runResult with
  | some msg => { exitCode := 1, stdout := ["Error: " ++ msg] }
  | none => { exitCode := 0, stdout := [] }

end SubwayData

/-- C4: the delete Action invokes the purge manager with confirmation equal
to the yes flag, whatever the flag value; and a purge without confirmation
is a dry run: it reports the days that are present in the ledger and would
be removed, and it leaves the state (published artifacts and ledger)
unchanged. -/
theorem C4_delete_confirm (rawDays : List String)
    (days : List SubwayData.CivilDay) (yes : Bool)
    (st : SubwayData.EtlState) :
    SubwayData.deleteAction rawDays yes st =
      (SubwayData.parseDays rawDays).map
        (fun ds => SubwayData.PurgeDays ds yes st) ∧
    (SubwayData.PurgeDays days false st).fst = st ∧
    (SubwayData.PurgeDays days false st).snd =
      days.filter (fun d => st.ledger.contains d) := by
  refine ⟨?_, rfl, rfl⟩
  cases h : SubwayData.parseDays rawDays with
  | error e => simp [SubwayData.deleteAction, h, Except.map]
  | ok ds =>
    simp [SubwayData.deleteAction, h, Except.map, SubwayData.DeleteDays]

/-- C5: the process exits with a nonzero status exactly when the top level
command invocation fails, printing the human readable error message; on
success the exit status is zero with no error output. -/
theorem C5_exit_status (r : Option String) (msg : String) :
    ((SubwayData.mainExit r).exitCode = 0 ↔ r = none) ∧
    (SubwayData.mainExit (some msg)).exitCode = 1 ∧
    (SubwayData.mainExit (some msg)).stdout = ["Error: " ++ msg] := by
  refine ⟨?_, rfl, rfl⟩
  cases r <;> simp [SubwayData.mainExit]

/-- C6: any day string rejected by the day parser makes both the run
command and the delete command return a user facing error: the run Action
returns an error and never invokes the pipeline, and the delete Action,
given the rejected string at any position among its day flags, returns an
error however the remaining flags are set and never invokes the purge
manager; both are total functions, so no panic occurs. -/
theorem C6_invalid_day_rejected (s : String)
    (h : SubwayData.ParseDay s = none) :
    SubwayData.runAction [s] =
      Except.error ("failed to parse day: " ++ s) ∧
    (∀ (pre rest : List String) (yes : Bool) (st : SubwayData.EtlState),
      ∃ e, SubwayData.deleteAction (pre ++ s :: rest) yes st =
        Except.error e) := by
  constructor
  · simp [SubwayData.runAction, h]
  · intro pre rest yes st
    have key : ∃ e, SubwayData.parseDays (pre ++ s :: rest) =
        Except.error e := by
      induction pre with
      | nil =>
        exact ⟨"failed to parse start date: " ++ s,
          by simp [SubwayData.parseDays, h]⟩
      | cons r pre ih =>
        obtain ⟨e, he⟩ := ih
        cases hr : SubwayData.ParseDay r with
        | none =>
          exact ⟨"failed to parse start date: " ++ r,
            by simp [SubwayData.parseDays, hr]⟩
        | some d =>
          exact ⟨e, by simp [SubwayData.parseDays, hr, he, Except.map]⟩
    obtain ⟨e, he⟩ := key
    exact ⟨e, by simp [SubwayData.deleteAction, he]⟩

/-- Witness for C6 at a concrete input: the string 2023-13-01 has a month
out of range, so the parser rejects it, the run command reports the error,
and the delete command reports an error also when a valid day flag comes
first. -/
theorem C6_invalid_day_rejected_witness :
    SubwayData.ParseDay "2023-13-01" = none ∧
    SubwayData.runAction ["2023-13-01"] =
      Except.error ("failed to parse day: " ++ "2023-13-01") ∧
    (∃ e, SubwayData.deleteAction ["2023-01-02", "2023-13-01"] false
        { ledger := [], published := [] } =
      Except.error e) :=
  ⟨by decide,
   (C6_invalid_day_rejected "2023-13-01" (by decide)).1,
   (C6_invalid_day_rejected "2023-13-01" (by decide)).2 ["2023-01-02"] []
     false { ledger := [], published := [] }⟩

/-- C7: when the concurrency flag is absent the backlog Action passes
concurrency one (strictly sequential), whatever the other flags; when the
limit flag is absent no prefix of the pending days is taken; and when the
limit flag is set to v the options carry exactly the limit v. -/
theorem C7_backlog_defaults (dry : Bool) (c v : Int) (lim : Option Int)
    (pending : List SubwayData.PendingDay) :
    (SubwayData.mkBacklogOptions dry none lim).concurrency = 1 ∧
    SubwayData.selectBacklogDays pending
      (SubwayData.mkBacklogOptions dry (some c) none).limit = pending ∧
    (SubwayData.mkBacklogOptions dry (some c) (some v)).limit = some v :=
  ⟨rfl, rfl, rfl⟩

/-- C9: for every day string the parser accepts, the run command invokes
the pipeline with the feed identifier set containing exactly nycsubway_L,
independent of the day. -/
theorem C9_run_feed_ids (s : String) (d : SubwayData.CivilDay)
    (h : SubwayData.ParseDay s = some d) :
    SubwayData.runAction [s] = Except.ok ⟨d, ["nycsubway_L"]⟩ := by
  simp [SubwayData.runAction, h]

/-- Witness for C9 at a concrete input: the valid day 2023-01-02 is parsed
and the pipeline is invoked with exactly the feed nycsubway_L. -/
theorem C9_run_feed_ids_witness :
    SubwayData.ParseDay "2023-01-02" =
      some { year := 2023, month := 1, day := 2 } ∧
    SubwayData.runAction ["2023-01-02"] =
      Except.ok { day := { year := 2023, month := 1, day := 2 },
                  feedIDs := ["nycsubway_L"] } :=
  ⟨by decide,
   C9_run_feed_ids "2023-01-02" { year := 2023, month := 1, day := 2 }
     (by decide)⟩

/-- C10: whenever the run command receives a positional argument count
other than one, it returns an error, the no day provided message for zero
arguments and the too many arguments message otherwise, and the pipeline is
never invoked. -/
theorem C10_run_arg_count (args : List String) (h : args.length ≠ 1) :
    SubwayData.runAction args =
      Except.error
        (if args.isEmpty then "no day provided"
         else "too many command line arguments passed") := by
  match args with
  | [] => rfl
  | [a] => exact absurd rfl h
  | a :: b :: rest => rfl

/-- Witness for C10 at concrete inputs: zero arguments yield the no day
provided error and two arguments yield the too many arguments error. -/
theorem C10_run_arg_count_witness :
    SubwayData.runAction [] = Except.error "no day provided" ∧
    SubwayData.runAction ["2023-01-02", "2023-01-03"] =
      Except.error "too many command line arguments passed" :=
  ⟨C10_run_arg_count [] (by decide),
   C10_run_arg_count ["2023-01-02", "2023-01-03"] (by decide)⟩
